import Mathlib

/-!
Shallow embedding of the adk-tide-generator detection-rule pipeline.

Each namespace embeds one Python module of the repository:

* `IntegrationTestCI` — `scripts/integration_test_ci.py` (snapshot), the
  confusion-matrix evaluator `calculate_metrics`.
* `RefineDetections` — `scripts/refine_detections.py`, the failure
  diagnoser `diagnose_failure` and the Sysmon→ECS field mapping it uses.
* `ValidateLucene` — `detection_agent/tools/validate_lucene.py`, the
  heuristic syntax checker `basic_lucene_validation` and the field
  extractor `extract_fields_from_query`.
* `EcsFields` — `detection_agent/tools/ecs_schema_loader.py` and
  `validate_ecs_fields.py`, the schema-first field resolver.
* `IterativeValidator` — `detection_agent/tools/iterative_validator.py`,
  the validate/regenerate refinement loop.
* `PerRuleRefinement` — `detection_agent/per_rule_refinement.py`
  (snapshot), the query-vs-tests decision fallback.

Python `float` arithmetic is modelled by exact rationals (`ℚ`); Python
`set` by `Finset String`; Python `dict` field access by association lists
or structures.  Wall-clock timestamps, logging, and on-disk persistence
are not modelled.  External collaborators (the luqum parser, the LLM
client, YAML/JSON parsers) enter as explicit oracle parameters, so the
control flow around them is embedded exactly.
-/

namespace IntegrationTestCI

/-- One entry of the test catalog: the expected event-ID sets for the four
test-case types, as loaded by `calculate_metrics` from `test_catalog`
(`expected['TP']` … `expected['TN']`, each converted with `set(...)`). -/
structure TestCatalogEntry where
  TP : Finset String
  FN : Finset String
  FP : Finset String
  TN : Finset String

/-- The per-rule metrics dict built by `calculate_metrics`.  The source
stores `round(precision, 3)` (and likewise recall / f1) into the dict;
that 3-decimal float presentation step is not modelled — the fields here
hold the exact computed values that the source computes and then rounds.
`false_negatives` is an integer difference as in Python.  The source's
dict key `recall` is rendered `recall_val` (`recall` is a Lean command
keyword). -/
structure RuleMetrics where
  tp_detected : ℕ
  tp_total : ℕ
  fn_missed : ℕ
  fn_total : ℕ
  fp_triggered : ℕ
  fp_total : ℕ
  tn_triggered : ℕ
  tn_total : ℕ
  true_positives : ℕ
  false_positives : ℕ
  false_negatives : ℤ
  precision : ℚ
  recall_val : ℚ
  f1_score : ℚ
  pass_threshold : Bool

/-- Embedding of the per-rule body of `calculate_metrics`
(`scripts/integration_test_ci.py`, snapshot): given one catalog entry and
the set of matched event IDs for that rule, compute the confusion-matrix
counts and the derived precision / recall / F1. -/
def calculate_metrics (expected : TestCatalogEntry) (matched_ids : Finset String) :
    RuleMetrics :=
  let tp_detected := (matched_ids ∩ expected.TP).card
  let tp_total := expected.TP.card
  let fn_missed := (expected.FN ∩ matched_ids).card
  let fn_total := expected.FN.card
  let fp_triggered := (matched_ids ∩ expected.FP).card
  let fp_total := expected.FP.card
  let tn_triggered := (matched_ids ∩ expected.TN).card
  let tn_total := expected.TN.card
  let true_positives := tp_detected
  let false_positives := fp_triggered + tn_triggered
  let false_negatives : ℤ := (tp_total : ℤ) - (tp_detected : ℤ)
  let precision : ℚ :=
    if 0 < true_positives + false_positives then
      (true_positives : ℚ) / ((true_positives : ℚ) + (false_positives : ℚ))
    else 0
  let recall_val : ℚ :=
    if 0 < (true_positives : ℤ) + false_negatives then
      (true_positives : ℚ) / ((true_positives : ℚ) + (false_negatives : ℚ))
    else 0
  let f1_score : ℚ :=
    if 0 < precision + recall_val then
      2 * (precision * recall_val) / (precision + recall_val)
    else 0
  let pass_threshold : Bool := decide (80 / 100 ≤ precision ∧ 70 / 100 ≤ recall_val)
  ⟨tp_detected, tp_total, fn_missed, fn_total, fp_triggered, fp_total,
    tn_triggered, tn_total, true_positives, false_positives, false_negatives,
    precision, recall_val, f1_score, pass_threshold⟩

/-- The confusion-matrix example entry: expected TP={"a","b"}, FP={"c"},
TN={"d"}, FN={}. -/
def exampleEntry : TestCatalogEntry :=
  ⟨{"a", "b"}, ∅, {"c"}, {"d"}⟩

/-- The example's actual matched-ID set {"a","b","c"}. -/
def exampleMatched : Finset String := {"a", "b", "c"}

end IntegrationTestCI

namespace RefineDetections

/-- Embedding of `SYSMON_TO_ECS_MAPPING` from `scripts/sysmon_to_ecs_mapper.py`: legacy
Sysmon field names to their canonical ECS equivalents. -/
def SYSMON_TO_ECS_MAPPING : List (String × String) :=
  [("Image", "process.executable"),
   ("CommandLine", "process.command_line"),
   ("ParentImage", "process.parent.executable"),
   ("ParentCommandLine", "process.parent.command_line"),
   ("ProcessId", "process.pid"),
   ("ProcessGuid", "process.entity_id"),
   ("User", "user.name"),
   ("TargetFilename", "file.path"),
   ("TargetObject", "registry.path"),
   ("EventID", "event.code"),
   ("UtcTime", "@timestamp"),
   ("DestinationIp", "destination.ip"),
   ("DestinationPort", "destination.port"),
   ("SourceIp", "source.ip"),
   ("SourcePort", "source.port")]

/-- What `diagnose_failure` finds when it inspects the rule's test-payload
directory: the directory is missing, it holds no `*.json` file, or a
sample payload was loaded, represented by the key list of its `log_entry`
object (`sample.get('log_entry', sample)` applied by the source). -/
inductive TestPayloadState where
  | missingDir : TestPayloadState
  | noJsonFile : TestPayloadState
  | sample (log_entry_fields : List String) : TestPayloadState

/-- The diagnosis dict returned by `diagnose_failure`.  The free-text
`details` string and the truncated `sample_fields` list (informational
only) are not modelled. -/
structure Diagnosis where
  issue : String
  action : String
  confidence : ℚ
deriving DecidableEq

/-- Python `any(field in log_entry for field in SYSMON_TO_ECS_MAPPING.keys())`. -/
def has_sysmon_fields (log_entry_fields : List String) : Bool :=
  SYSMON_TO_ECS_MAPPING.any (fun p => log_entry_fields.contains p.1)

/-- Python `any('.' in field or field == '@timestamp' for field in log_entry.keys())`. -/
def has_ecs_fields (log_entry_fields : List String) : Bool :=
  log_entry_fields.any (fun f => f.toList.contains '.' || f == "@timestamp")

/-- The body of check 1 of `diagnose_failure` (only reached when
`tp == 0 and fp == 0`): inspect the test payloads; `none` means the check
returned nothing and control falls through to the later checks. -/
def zero_detection_check : TestPayloadState → Option Diagnosis
  | .missingDir => some ⟨"no_test_payloads", "skip", 1⟩
  | .noJsonFile => some ⟨"no_test_payloads", "skip", 1⟩
  | .sample fields =>
      if has_sysmon_fields fields && !has_ecs_fields fields then
        some ⟨"field_mismatch", "convert_sysmon_to_ecs", 95 / 100⟩
      else none

/-- Embedding of `diagnose_failure` (`scripts/refine_detections.py`).  The
metrics counts are naturals (the source reads them from the integration
report, where they are set cardinalities); the filesystem inspection of
check 1 is summarised by a `TestPayloadState`.  Python float literals
0.95 / 0.75 / 0.80 / 0.70 are modelled as exact rationals. -/
def diagnose_failure (tp fp tn fn : ℕ) (payloads : TestPayloadState) : Diagnosis :=
  match (if tp = 0 ∧ fp = 0 then zero_detection_check payloads else none) with
  | some d => d
  | none =>
    if fn > tp ∧ tp > 0 then
      ⟨"rule_too_strict", "broaden_rule", 75 / 100⟩
    else if fp > tp ∧ tp > 0 then
      ⟨"rule_too_broad", "add_filters", 80 / 100⟩
    else if tp > 0 ∧ (tp : ℚ) / ((tp : ℚ) + (fn : ℚ)) < 70 / 100 then
      ⟨"low_recall", "analyze_false_negatives", 70 / 100⟩
    else
      ⟨"unknown", "manual_review", 0⟩

end RefineDetections

namespace ValidateLucene

/-- The ASCII characters matched by Python's regex class `\s` (the source
operates on ASCII queries; Unicode whitespace is not modelled). -/
def pySpace (c : Char) : Bool :=
  c = ' ' || c = '\t' || c = '\n' || c = '\r' || c = '\x0b' || c = '\x0c'

/-- Regex class `[a-zA-Z]`. -/
def asciiLetter (c : Char) : Bool :=
  ('a' ≤ c && c ≤ 'z') || ('A' ≤ c && c ≤ 'Z')

/-- Regex class `[a-zA-Z_]` — the first character of a field name in
`extract_fields_from_query`'s pattern. -/
def fieldStartChar (c : Char) : Bool :=
  asciiLetter c || c = '_'

/-- Regex class `[a-zA-Z0-9_\.]` — the continuation characters of a field
name in `extract_fields_from_query`'s pattern. -/
def fieldContChar (c : Char) : Bool :=
  asciiLetter c || ('0' ≤ c && c ≤ '9') || c = '_' || c = '.'

/-- Python `query.count('(')`. -/
def open_count (query : String) : ℕ := query.toList.count '('

/-- Python `query.count(')')`. -/
def close_count (query : String) : ℕ := query.toList.count ')'

/-- The unbalanced-parentheses error message
`f"Unbalanced parentheses: {open_count} open, {close_count} close"`. -/
def unbalanced_message (query : String) : String :=
  "Unbalanced parentheses: " ++ toString (open_count query) ++ " open, " ++
    toString (close_count query) ++ " close"

/-- The literal-slash error message of `basic_lucene_validation`. -/
def slash_message : String :=
  "Literal slash detected - use wildcards instead (e.g., *flag* not /flag)"

/-- Python `re.search(r'\s/[a-zA-Z]', query)`: somewhere in the query a
whitespace character is immediately followed by `/` and an ASCII letter. -/
def has_literal_slash : List Char → Bool
  | a :: b :: c :: rest =>
      (pySpace a && b = '/' && asciiLetter c) || has_literal_slash (b :: c :: rest)
  | _ => false

/-- The dict returned by `basic_lucene_validation`: `valid`, the echoed
`query`, the accumulated `errors` list, the joined `error` string (only
present when invalid) and the `message` string (only present when
valid). -/
structure BasicValidationResult where
  valid : Bool
  query : String
  errors : List String
  error : Option String
  message : Option String

/-- Embedding of `basic_lucene_validation`
(`detection_agent/tools/validate_lucene.py`): the fallback heuristic
checker used when the luqum parser is unavailable.  It accumulates the
parenthesis-balance error and the literal-slash error, in that order. -/
def basic_lucene_validation (query : String) : BasicValidationResult :=
  let errors₀ : List String := []
  let errors₁ :=
    if open_count query ≠ close_count query then
      errors₀ ++ [unbalanced_message query]
    else errors₀
  let errors₂ :=
    if has_literal_slash query.toList then
      errors₁ ++ [slash_message]
    else errors₁
  if errors₂ ≠ [] then
    ⟨false, query, errors₂, some (String.intercalate "; " errors₂), none⟩
  else
    ⟨true, query, errors₂, none,
      some "Basic validation passed (install luqum for full validation)"⟩

/-- Python `re.findall(r'([a-zA-Z_][a-zA-Z0-9_\.]*)\s*:', query)`: scan left to
right; at a `[a-zA-Z_]` character take the maximal run of `[a-zA-Z0-9_.]`
characters, skip `\s*`, and if the next character is `:` emit the run as
a field name and resume after the `:`; otherwise retry one character
later.  (For this pattern the regex engine's greedy matching with
backtracking reduces to exactly this scan, because `:` and whitespace are
not in the continuation class.)  The `fuel` argument only makes the
recursion structural: every step consumes at least one character, so the
initial `length + 1` supplied by `find_fields` can never run out. -/
def find_fields_fuelled : ℕ → List Char → List String
  | 0, _ => []
  | _ + 1, [] => []
  | fuel + 1, c :: cs =>
    if fieldStartChar c then
      let ident := c :: cs.takeWhile fieldContChar
      let afterIdent := cs.dropWhile fieldContChar
      let afterSpace := afterIdent.dropWhile pySpace
      match afterSpace with
      | ':' :: rest =>
          ident.asString :: find_fields_fuelled fuel rest
      | _ => find_fields_fuelled fuel cs
    else find_fields_fuelled fuel cs

/-- The regex scan on a whole character list. -/
def find_fields (l : List Char) : List String :=
  find_fields_fuelled (l.length + 1) l

/-- Lexicographic comparison of character lists by code point — the order
Python's `sorted` uses on strings. -/
def lex_le : List Char → List Char → Bool
  | [], _ => true
  | _ :: _, [] => false
  | a :: as, b :: bs =>
    if a < b then true
    else if b < a then false
    else lex_le as bs

/-- Python's `≤` on strings: lexicographic by code point. -/
def str_le (a b : String) : Bool := lex_le a.data b.data

/-- The order relation `str_le` as a `Prop` relation, for the sort. -/
def strLeRel (a b : String) : Prop := str_le a b = true

instance : DecidableRel strLeRel := fun a b => by
  unfold strLeRel
  infer_instance

/-- Embedding of `extract_fields_from_query`
(`detection_agent/tools/validate_lucene.py`): `sorted(set(fields))` —
deduplicate the matched field names and sort them in Python's
lexicographic string order (an insertion sort is an exact model of
`sorted` here: after deduplication the ascending reordering is unique). -/
def extract_fields_from_query (query : String) : List String :=
  ((find_fields query.toList).dedup).insertionSort strLeRel

end ValidateLucene

namespace EcsFields

/-- One value of the ECS flat schema mapping (`ecs_flat.yml`): the keys
`get_field_info` reads, each optional because it uses `.get` with a
default.  The source keys `type` and `example` are rendered `type_info`
and `example_val` (`example` is a Lean keyword; `type` collides with the
`Type` universe notation too easily). -/
structure SchemaEntry where
  type_info : Option String
  description : Option String
  example_val : Option String
  level : Option String

/-- The dict returned by `get_field_info` / `validate_field`: the union
of the keys of all return branches, absent keys as `none`. -/
structure FieldInfo where
  valid : Bool
  field : String
  type_info : Option String
  description : Option String
  example_val : Option String
  level : Option String
  error : Option String
  needs_research : Bool
  source : Option String
deriving DecidableEq

/-- Embedding of `get_field_info`
(`detection_agent/tools/ecs_schema_loader.py`): look the field name up in
the canonical schema mapping; present fields are `valid` with the
recorded type (default `'unknown'`), absent fields are invalid.  The
schema dict is modelled as an association list (Python dict keys are
unique). -/
def get_field_info (schema : List (String × SchemaEntry)) (field_name : String) :
    FieldInfo :=
  match schema.lookup field_name with
  | some field_data =>
      ⟨true, field_name, some (field_data.type_info.getD "unknown"),
        some (field_data.description.getD ""),
        some (field_data.example_val.getD ""),
        some (field_data.level.getD "custom"), none, false, none⟩
  | none =>
      ⟨false, field_name, none, none, none, none,
        some "Field not found in ECS schema", false, none⟩

/-- The state of an `ECSFieldValidator`: the loaded canonical schema and
the dynamic research cache (session + persisted), both association
lists. -/
structure ECSFieldValidator where
  schema : List (String × SchemaEntry)
  dynamic_cache : List (String × FieldInfo)

/-- Embedding of `ECSFieldValidator.validate_field`
(`detection_agent/tools/validate_ecs_fields.py`): consult the canonical
ECS schema first (authoritative); only if the schema misses, fall back to
the dynamic research cache (tagging the hit with
`source = 'dynamic_cache'`); otherwise report the field as needing
research. -/
def validate_field (v : ECSFieldValidator) (field_name : String) : FieldInfo :=
  let info := get_field_info v.schema field_name
  if info.valid then info
  else
    match v.dynamic_cache.lookup field_name with
    | some cached =>
        ⟨cached.valid, cached.field, cached.type_info, cached.description,
          cached.example_val, cached.level, cached.error,
          cached.needs_research, some "dynamic_cache"⟩
    | none =>
        ⟨false, field_name, none, none, none, none,
          some "Field not in ECS schema - requires research", true, none⟩

end EcsFields

namespace IterativeValidator

/-- A detection rule as read by the loop (`rule.get('name', ...)`,
`rule.get('query', '')`); the loop's control flow never depends on the
contents, only on the list length in the returned summary. -/
structure Rule where
  name : Option String
  query : String

/-- The `cti_context` value carried through `rules_data`: either the
opaque payload that came with the generation, or the default
`{'source': 'cti_src', 'analyzed': <timestamp>}` stamp the loop inserts
(its wall-clock timestamp is not modelled). -/
inductive CtiContext where
  | payload (raw : String) : CtiContext
  | defaultStamp : CtiContext
deriving DecidableEq

/-- The `rules_data` dict as far as the loop inspects it: the `'rules'`
key (which may be absent — that is what the post-regeneration
`'rules' not in rules_data` check tests) and the `'cti_context'` key. -/
structure RulesDict where
  rules : Option (List Rule)
  cti_context : Option CtiContext

/-- One record appended to `iteration_history` per iteration (its
`datetime.now().isoformat()` timestamp is not modelled). -/
structure IterationRecord where
  iteration : ℕ
  all_valid : Bool
  issues_count : ℕ

/-- The structured result dict built by the two `return` statements of
the loop body.  `validation_incomplete` and `remaining_issues` are only
set by the exhausted-iterations return; the all-valid return omits those
keys, modelled as `false` / `none`. -/
structure ValidationOutcome where
  rules : List Rule
  cti_context : Option CtiContext
  total_rules : ℕ
  validation_iterations : ℕ
  validation_history : List IterationRecord
  validation_incomplete : Bool
  remaining_issues : Option (List String)

/-- What parsing the regeneration response produced:
`safe_json_parse(refined_response)` either raises (caught by the
`except`) or yields a dict. -/
inductive RefinedParse where
  | parseFailure : RefinedParse
  | parsed (d : RulesDict) : RefinedParse

/-- The function's reachable return values: one of the structured result
dicts, or — via a `break` out of the iteration loop — the trailing bare
`return rules_data`. -/
inductive LoopReturn where
  | result (r : ValidationOutcome) : LoopReturn
  | raw (d : RulesDict) : LoopReturn

/-- The iteration loop of `validate_and_refine_rules`
(`detection_agent/tools/iterative_validator.py`).

External collaborators enter as oracles:
* `validate i d` — the whole per-rule validation pass of iteration `i`
  (luqum syntax check, ECS field validation, field research), returning
  the pair (`all_valid`, `validation_issues`);
* `regenerate i issues` — `generate_with_retry_func` on the refinement
  prompt built from `issues`, composed with `safe_json_parse`.

Arguments after the oracles: the current Python `iteration` index, the
remaining loop extent (initially `max_iterations`, stepping the `for
iteration in range(max_iterations)`), the current `rules_data`, the
accumulated `iteration_history`, and a ghost counter of how many times
`regenerate` has been invoked (instrumentation only — not a dict key).
When the extent is exhausted the trailing `return rules_data` runs. -/
def validate_and_refine_loop
    (validate : ℕ → RulesDict → Bool × List String)
    (regenerate : ℕ → List String → RefinedParse)
    (max_iterations : ℕ) :
    ℕ → ℕ → RulesDict → List IterationRecord → ℕ → LoopReturn × ℕ
  | _, 0, rules_data, _, regen_count => (.raw rules_data, regen_count)
  | iteration, extent + 1, rules_data, history, regen_count =>
    match validate iteration rules_data with
    | (all_valid, validation_issues) =>
      let history' := history ++ [⟨iteration + 1, all_valid, validation_issues.length⟩]
      if all_valid then
        (.result ⟨rules_data.rules.getD [], rules_data.cti_context,
          (rules_data.rules.getD []).length, iteration + 1, history', false, none⟩,
          regen_count)
      else if iteration < max_iterations - 1 then
        match regenerate iteration validation_issues with
        | .parseFailure =>
            -- `except` around `safe_json_parse`: print and `break`,
            -- falling through to the bare `return rules_data`.
            (.raw rules_data, regen_count + 1)
        | .parsed d =>
            if d.rules.isNone then
              -- `'rules' not in rules_data`: `break` with the freshly
              -- assigned (incomplete) dict.
              (.raw d, regen_count + 1)
            else
              -- insert the default cti_context if absent, then loop.
              validate_and_refine_loop validate regenerate max_iterations
                (iteration + 1) extent
                ⟨d.rules, some (d.cti_context.getD .defaultStamp)⟩
                history' (regen_count + 1)
      else
        (.result ⟨rules_data.rules.getD [], rules_data.cti_context,
          (rules_data.rules.getD []).length, max_iterations, history', true,
          some validation_issues⟩, regen_count)

/-- Embedding of `validate_and_refine_rules`: run the loop from iteration
0 with empty history.  The second component is the ghost count of
regeneration invocations. -/
def validate_and_refine_rules
    (validate : ℕ → RulesDict → Bool × List String)
    (regenerate : ℕ → List String → RefinedParse)
    (max_iterations : ℕ) (rules_data : RulesDict) : LoopReturn × ℕ :=
  validate_and_refine_loop validate regenerate max_iterations 0 max_iterations
    rules_data [] 0

/-- Does a return value carry the outstanding issue list?  Only the
structured exhausted-iterations result does; the bare `return rules_data`
reached through `break` cannot (a `RulesDict` has no issues key). -/
def surfaces_issue_list : LoopReturn → Bool
  | .result r => r.remaining_issues.isSome
  | .raw _ => false

end IterativeValidator

namespace PerRuleRefinement

/-- First index at which `needle` occurs as a contiguous sublist of the
remaining text — Python's `str.find`, with `none` for Python's `-1`. -/
def findSubIdx (needle : List Char) : List Char → Option ℕ
  | [] => if needle.isEmpty then some 0 else none
  | c :: cs =>
    if needle.isPrefixOf (c :: cs) then some 0
    else (findSubIdx needle cs).map (· + 1)

/-- Python's `str.strip()` restricted to ASCII whitespace. -/
def pyStrip (s : List Char) : List Char :=
  ((s.dropWhile ValidateLucene.pySpace).reverse.dropWhile
    ValidateLucene.pySpace).reverse

/-- The markdown-fence stripping in `should_refine_query_or_tests`
(`detection_agent/per_rule_refinement.py`, snapshot): if the response
contains a ```` ```yaml ```` fence, slice from just after it up to the
next ```` ``` ```` and strip; when no closing fence exists, Python's
`find` yields `-1` and the slice `text[start:-1]` drops the final
character.  Without an opening fence the raw text is used. -/
def extract_decision_yaml (text : String) : String :=
  let t := text.data
  match findSubIdx "```yaml".data t with
  | some i =>
    let start := i + 7
    let sub := t.drop start
    match findSubIdx "```".data sub with
    | some j => (pyStrip (sub.take j)).asString
    | none => (pyStrip sub.dropLast).asString
  | none => text

/-- What `yaml.safe_load` produced on the extracted decision text:
an exception, a parsed non-mapping document (on which `.get` raises
`AttributeError`, caught by the same `except`), or a mapping, modelled as
an association list of its string entries. -/
inductive YamlLoadResult where
  | loadFailure : YamlLoadResult
  | nonMapping : YamlLoadResult
  | mapping (kv : List (String × String)) : YamlLoadResult

/-- Embedding of the decision-parsing tail of
`should_refine_query_or_tests` (the prompt construction and LLM call
produce `response_text`; the YAML library enters as the `safe_load`
oracle): extract the fenced YAML, parse it, and return the
`needs_fixing` value, defaulting to `'query'` when parsing raises, the
document is not a mapping, or the key is absent. -/
def should_refine_query_or_tests (safe_load : String → YamlLoadResult)
    (response_text : String) : String :=
  match safe_load (extract_decision_yaml response_text) with
  | .loadFailure => "query"
  | .nonMapping => "query"
  | .mapping kv => (kv.lookup "needs_fixing").getD "query"

end PerRuleRefinement

namespace EcsFields

/-- A one-field canonical schema used as concrete input: `event.category`
with type `keyword`. -/
def exampleSchema : List (String × SchemaEntry) :=
  [("event.category", ⟨some "keyword", some "Event category.", none, some "core"⟩)]

/-- A deliberately conflicting research-cache entry for the same field,
to exercise that the schema tier wins. -/
def bogusCached : FieldInfo :=
  ⟨true, "event.category", some "bogus", none, none, none, none, false, some "research"⟩

end EcsFields

namespace IterativeValidator

/-- A validation oracle on which every iteration fails with one issue. -/
def all_invalid_validate : ℕ → RulesDict → Bool × List String :=
  fun _ _ => (false, ["Rule 'r0': Lucene syntax error - unbalanced parentheses"])

/-- A regeneration oracle whose responses always parse and carry the
`'rules'` key. -/
def ok_regenerate : ℕ → List String → RefinedParse :=
  fun _ _ => RefinedParse.parsed ⟨some [], none⟩

/-- A regeneration oracle whose responses never parse
(`safe_json_parse` raises). -/
def malformed_regenerate : ℕ → List String → RefinedParse :=
  fun _ _ => RefinedParse.parseFailure

/-- A regeneration oracle whose responses parse but lack the mandatory
`'rules'` key. -/
def noRules_regenerate : ℕ → List String → RefinedParse :=
  fun _ _ => RefinedParse.parsed ⟨none, none⟩

/-- A concrete starting `rules_data`. -/
def sample_rules_data : RulesDict := ⟨some [⟨some "r0", "event.category:process"⟩], none⟩

/-- Checks that a return value is the structured exhausted-iterations
result: incomplete, with the issue list attached, after three recorded
validation passes. -/
def is_exhausted_outcome : LoopReturn → Bool
  | .result r =>
      r.validation_incomplete && r.remaining_issues.isSome
        && (r.validation_history.length == 3)
  | .raw _ => false

end IterativeValidator

/-!
Helper lemmas and the claim theorems.
-/

namespace ValidateLucene

/-- The relation `lex_le` is total. -/
theorem lex_le_total : ∀ a b : List Char, (lex_le a b || lex_le b a) = true := by
  intro a
  induction a with
  | nil => intro b; simp [lex_le]
  | cons x xs ih =>
    intro b
    cases b with
    | nil => simp [lex_le]
    | cons y ys =>
      by_cases h1 : x < y
      · simp [lex_le, h1]
      · by_cases h2 : y < x
        · simp [lex_le, h1, h2]
        · simpa [lex_le, h1, h2] using ih ys

/-- The relation `lex_le` is transitive. -/
theorem lex_le_trans :
    ∀ a b c : List Char, lex_le a b = true → lex_le b c = true → lex_le a c = true := by
  intro a
  induction a with
  | nil => intro b c _ _; simp [lex_le]
  | cons x xs ih =>
    intro b c hab hbc
    cases b with
    | nil => simp [lex_le] at hab
    | cons y ys =>
      cases c with
      | nil => simp [lex_le] at hbc
      | cons z zs =>
        by_cases h1 : x < y
        · by_cases h3 : y < z
          · simp [lex_le, lt_trans h1 h3]
          · by_cases h4 : z < y
            · simp [lex_le, h3, h4] at hbc
            · have hyz : y = z := le_antisymm (not_lt.mp h4) (not_lt.mp h3)
              simp [lex_le, hyz ▸ h1]
        · by_cases h2 : y < x
          · simp [lex_le, h1, h2] at hab
          · have hxy : x = y := le_antisymm (not_lt.mp h2) (not_lt.mp h1)
            rw [lex_le, if_neg h1, if_neg h2] at hab
            by_cases h3 : y < z
            · simp [lex_le, hxy ▸ h3]
            · by_cases h4 : z < y
              · simp [lex_le, h3, h4] at hbc
              · have hyz : y = z := le_antisymm (not_lt.mp h4) (not_lt.mp h3)
                rw [lex_le, if_neg h3, if_neg h4] at hbc
                have hxz : ¬ x < z := hyz ▸ hxy ▸ lt_irrefl x
                rw [lex_le, if_neg (hxz), if_neg (by rw [← hyz, ← hxy]; exact lt_irrefl x)]
                exact ih ys zs hab hbc

instance : IsTotal String strLeRel :=
  ⟨fun a b => by
    have h := lex_le_total a.data b.data
    unfold strLeRel str_le
    rcases Bool.or_eq_true_iff.mp h with h' | h'
    · exact Or.inl h'
    · exact Or.inr h'⟩

instance : IsTrans String strLeRel :=
  ⟨fun a b c hab hbc => lex_le_trans a.data b.data c.data hab hbc⟩

end ValidateLucene

open IntegrationTestCI RefineDetections ValidateLucene EcsFields IterativeValidator PerRuleRefinement

/-- C1: for every assignment of expected-ID sets and every actual
matched-ID set, `calculate_metrics` computes
`true_positives = |actual ∩ expected.TP|`,
`false_positives = |actual ∩ expected.FP| + |actual ∩ expected.TN|` and
`false_negatives = |expected.TP| − true_positives`; and on the worked
example (expected TP={"a","b"}, FP={"c"}, TN={"d"}, FN={}, actual
matches {"a","b","c"}) it returns TP=2, FP=1, FN=0, precision=2/3,
recall=1. -/
theorem claim_C1_confusion_matrix (expected : TestCatalogEntry) (matched_ids : Finset String) :
    ((calculate_metrics expected matched_ids).true_positives
        = (matched_ids ∩ expected.TP).card ∧
      (calculate_metrics expected matched_ids).false_positives
        = (matched_ids ∩ expected.FP).card + (matched_ids ∩ expected.TN).card ∧
      (calculate_metrics expected matched_ids).false_negatives
        = (expected.TP.card : ℤ) - ((matched_ids ∩ expected.TP).card : ℤ)) ∧
    ((calculate_metrics exampleEntry exampleMatched).true_positives = 2 ∧
      (calculate_metrics exampleEntry exampleMatched).false_positives = 1 ∧
      (calculate_metrics exampleEntry exampleMatched).false_negatives = 0 ∧
      (calculate_metrics exampleEntry exampleMatched).precision = 2 / 3 ∧
      (calculate_metrics exampleEntry exampleMatched).recall_val = 1) := by
  refine ⟨⟨rfl, rfl, rfl⟩, by decide, by decide, by decide, ?_, ?_⟩
  · have h : (calculate_metrics exampleEntry exampleMatched).precision
        = ((2 : ℕ) : ℚ) / (((2 : ℕ) : ℚ) + ((1 : ℕ) : ℚ)) := rfl
    rw [h]; norm_num
  · have h : (calculate_metrics exampleEntry exampleMatched).recall_val
        = ((2 : ℕ) : ℚ) / (((2 : ℕ) : ℚ) + (((0 : ℤ)) : ℚ)) := rfl
    rw [h]; norm_num

/-- C9: every division in `calculate_metrics` is guarded — when
`TP+FP = 0` the precision defaults to 0, when `TP+FN = 0` the recall
defaults to 0, and when `precision+recall = 0` the F1 defaults to 0, so
the evaluator is total. -/
theorem claim_C9_division_guards (expected : TestCatalogEntry) (matched_ids : Finset String) :
    ((calculate_metrics expected matched_ids).true_positives
        + (calculate_metrics expected matched_ids).false_positives = 0 →
      (calculate_metrics expected matched_ids).precision = 0) ∧
    (((calculate_metrics expected matched_ids).true_positives : ℤ)
        + (calculate_metrics expected matched_ids).false_negatives = 0 →
      (calculate_metrics expected matched_ids).recall_val = 0) ∧
    ((calculate_metrics expected matched_ids).precision
        + (calculate_metrics expected matched_ids).recall_val = 0 →
      (calculate_metrics expected matched_ids).f1_score = 0) := by
  refine ⟨?_, ?_, ?_⟩ <;> intro h <;> simp only [calculate_metrics] at h ⊢
  · rw [if_neg (by omega)]
  · rw [if_neg (by omega)]
  · rw [if_neg (by rw [h]; exact lt_irrefl 0)]

/-- C9 witness: on the all-empty catalog entry with no matches all three
guard hypotheses hold and all three outputs are 0. -/
theorem claim_C9_witness :
    ((calculate_metrics ⟨∅, ∅, ∅, ∅⟩ ∅).true_positives
        + (calculate_metrics ⟨∅, ∅, ∅, ∅⟩ ∅).false_positives = 0 ∧
      (calculate_metrics ⟨∅, ∅, ∅, ∅⟩ ∅).precision = 0) ∧
    (((calculate_metrics ⟨∅, ∅, ∅, ∅⟩ ∅).true_positives : ℤ)
        + (calculate_metrics ⟨∅, ∅, ∅, ∅⟩ ∅).false_negatives = 0 ∧
      (calculate_metrics ⟨∅, ∅, ∅, ∅⟩ ∅).recall_val = 0) ∧
    ((calculate_metrics ⟨∅, ∅, ∅, ∅⟩ ∅).precision
        + (calculate_metrics ⟨∅, ∅, ∅, ∅⟩ ∅).recall_val = 0 ∧
      (calculate_metrics ⟨∅, ∅, ∅, ∅⟩ ∅).f1_score = 0) := by
  have h := claim_C9_division_guards ⟨∅, ∅, ∅, ∅⟩ ∅
  exact ⟨⟨by decide, h.1 (by decide)⟩, ⟨by decide, h.2.1 (by decide)⟩,
    ⟨by rw [h.1 (by decide), h.2.1 (by decide)]; norm_num,
      h.2.2 (by rw [h.1 (by decide), h.2.1 (by decide)]; norm_num)⟩⟩

/-- C3: whenever TP > 0, `diagnose_failure` applies its checks in the
fixed first-match-wins order — FN > TP gives `rule_too_strict` (0.75),
then FP > TP gives `rule_too_broad` (0.80), then TP/(TP+FN) < 0.70 gives
`low_recall` (0.70), otherwise `unknown` (0.0) — regardless of the test
payload state (the zero-detection check cannot fire). -/
theorem claim_C3_diagnosis_order (tp fp tn fn : ℕ) (payloads : TestPayloadState)
    (htp : 0 < tp) :
    diagnose_failure tp fp tn fn payloads =
      if fn > tp then ⟨"rule_too_strict", "broaden_rule", 75 / 100⟩
      else if fp > tp then ⟨"rule_too_broad", "add_filters", 80 / 100⟩
      else if (tp : ℚ) / ((tp : ℚ) + (fn : ℚ)) < 70 / 100 then
        ⟨"low_recall", "analyze_false_negatives", 70 / 100⟩
      else ⟨"unknown", "manual_review", 0⟩ := by
  unfold diagnose_failure
  rw [if_neg (by omega : ¬ (tp = 0 ∧ fp = 0))]
  simp [htp]

/-- C3 witness: at TP=1, FP=0, TN=0, FN=2 the hypothesis holds and the
first-match order fires the `rule_too_strict` branch. -/
theorem claim_C3_witness :
    (0 : ℕ) < 1 ∧
    diagnose_failure 1 0 0 2 TestPayloadState.missingDir =
      (if 2 > 1 then (⟨"rule_too_strict", "broaden_rule", 75 / 100⟩ : Diagnosis)
        else if 0 > 1 then ⟨"rule_too_broad", "add_filters", 80 / 100⟩
        else if ((1 : ℕ) : ℚ) / (((1 : ℕ) : ℚ) + ((2 : ℕ) : ℚ)) < 70 / 100 then
          ⟨"low_recall", "analyze_false_negatives", 70 / 100⟩
        else ⟨"unknown", "manual_review", 0⟩) :=
  ⟨by decide, claim_C3_diagnosis_order 1 0 0 2 TestPayloadState.missingDir (by decide)⟩

/-- C4 counterexample: at metrics TP=0, FP=5, FN=0, TN=0 with a
Sysmon-named sample payload, `diagnose_failure` does NOT return
`field_mismatch` with confidence 0.95 — the zero-detection check
requires `fp == 0` as well, so the diagnoser falls through to `unknown`
with confidence 0. -/
theorem claim_C4_counterexample :
    (diagnose_failure 0 5 0 0 (TestPayloadState.sample ["Image", "CommandLine", "EventID"])).issue
      = "unknown" ∧
    (diagnose_failure 0 5 0 0 (TestPayloadState.sample ["Image", "CommandLine", "EventID"])).confidence
      = 0 ∧
    ¬ ((diagnose_failure 0 5 0 0 (TestPayloadState.sample ["Image", "CommandLine", "EventID"])).issue
        = "field_mismatch" ∧
      (diagnose_failure 0 5 0 0 (TestPayloadState.sample ["Image", "CommandLine", "EventID"])).confidence
        = 95 / 100) := by
  decide

/-- C4 amended: at metrics TP=0, FP=0, FN=0, TN=0 (no detections at all)
with a sample payload using legacy Sysmon field names and no ECS-style
names, `diagnose_failure` returns `field_mismatch` with confidence
0.95. -/
theorem claim_C4_amended :
    diagnose_failure 0 0 0 0 (TestPayloadState.sample ["Image", "CommandLine", "EventID"])
      = ⟨"field_mismatch", "convert_sysmon_to_ecs", 95 / 100⟩ := rfl

/-- C6: for every field name present in the canonical schema mapping,
`validate_field` answers `valid=true` with the type the schema records
for it (the source's `'unknown'` default applying only when the schema
entry lacks a type), and the answer does not depend on the research
cache at all — so repeated calls within a run, even across cache
mutations, return the same answer. -/
theorem claim_C6_schema_first (schema : List (String × SchemaEntry))
    (cache cache' : List (String × FieldInfo)) (field_name : String)
    (entry : SchemaEntry) (h : schema.lookup field_name = some entry) :
    (validate_field ⟨schema, cache⟩ field_name).valid = true ∧
    (validate_field ⟨schema, cache⟩ field_name).type_info
      = some (entry.type_info.getD "unknown") ∧
    validate_field ⟨schema, cache⟩ field_name
      = validate_field ⟨schema, cache'⟩ field_name := by
  unfold validate_field get_field_info
  rw [h]
  simp

/-- C6 witness: on a concrete one-field schema the resolver returns
`valid=true` with type `keyword`, and a conflicting cache entry for the
same field does not change the answer. -/
theorem claim_C6_witness :
    EcsFields.exampleSchema.lookup "event.category"
        = some ⟨some "keyword", some "Event category.", none, some "core"⟩ ∧
    ((validate_field ⟨EcsFields.exampleSchema, []⟩ "event.category").valid = true ∧
      (validate_field ⟨EcsFields.exampleSchema, []⟩ "event.category").type_info
        = some "keyword" ∧
      validate_field ⟨EcsFields.exampleSchema, []⟩ "event.category"
        = validate_field ⟨EcsFields.exampleSchema,
            [("event.category", EcsFields.bogusCached)]⟩ "event.category") :=
  ⟨rfl, claim_C6_schema_first EcsFields.exampleSchema []
    [("event.category", EcsFields.bogusCached)] "event.category"
    ⟨some "keyword", some "Event category.", none, some "core"⟩ rfl⟩

/-- The unbalanced-parentheses message can never coincide with the
literal-slash message (their first characters differ). -/
theorem unbalanced_message_ne_slash (q : String) :
    unbalanced_message q ≠ slash_message := by
  intro h
  have hd : (unbalanced_message q).data.head? = slash_message.data.head? := by rw [h]
  rw [show (unbalanced_message q).data
      = "Unbalanced parentheses: ".data ++ (toString (open_count q)).data
        ++ " open, ".data ++ (toString (close_count q)).data ++ " close".data by
    simp [unbalanced_message, String.data_append]] at hd
  simp [slash_message] at hd

/-- The error list built by `basic_lucene_validation` is exactly the
parenthesis-balance error (when the counts differ) followed by the
literal-slash error (when the pattern occurs). -/
theorem basic_lucene_validation_errors (query : String) :
    (basic_lucene_validation query).errors =
      (if open_count query ≠ close_count query then [unbalanced_message query] else [])
        ++ (if has_literal_slash query.toList then [slash_message] else []) := by
  unfold basic_lucene_validation
  split_ifs <;> simp_all

/-- C7: the fallback syntax checker reports the unbalanced-parentheses
error — whose message is built from both the open count and the close
count — if and only if the count of `(` differs from the count of `)`;
queries with equal counts are never flagged by the parenthesis-balance
check. -/
theorem claim_C7_paren_balance (query : String) :
    unbalanced_message query ∈ (basic_lucene_validation query).errors ↔
      open_count query ≠ close_count query := by
  rw [basic_lucene_validation_errors]
  by_cases hbal : open_count query ≠ close_count query
  · simp [hbal]
  · simp only [if_neg hbal, List.nil_append]
    constructor
    · intro hmem
      by_cases hs : has_literal_slash query.toList
      · rw [if_pos hs] at hmem
        exact absurd (List.mem_singleton.mp hmem) (unbalanced_message_ne_slash query)
      · rw [if_neg hs] at hmem
        exact absurd hmem (List.not_mem_nil _)
    · intro hne
      exact absurd hne hbal

/-- C7 witness: the theorem instantiated at the concrete unbalanced query
`"((a)"` (2 opens, 1 close). -/
theorem claim_C7_witness :
    unbalanced_message "((a)" ∈ (basic_lucene_validation "((a)").errors ↔
      open_count "((a)" ≠ close_count "((a)" :=
  claim_C7_paren_balance "((a)"

/-- C8: the field extractor always returns a (finite, by construction)
list that is sorted in Python's string order and duplicate-free, and on
the worked query it returns exactly
`["event.category", "process.name"]`. -/
theorem claim_C8_extract_fields (query : String) :
    (extract_fields_from_query query).Sorted strLeRel ∧
    (extract_fields_from_query query).Nodup ∧
    extract_fields_from_query "event.category:process AND process.name:*cmd.exe*"
      = ["event.category", "process.name"] := by
  refine ⟨List.sorted_insertionSort strLeRel _, ?_, by decide⟩
  exact (List.perm_insertionSort strLeRel _).nodup_iff.mpr
    (List.nodup_dedup (find_fields query.toList))

/-- C10: whenever the classification response's extracted YAML either
fails to load as a mapping or loads as a mapping lacking the
`needs_fixing` key, `should_refine_query_or_tests` returns the default
target `'query'` (the embedding is total, so no error escapes). -/
theorem claim_C10_default_query
    (safe_load : String → YamlLoadResult) (response_text : String)
    (h : ∀ kv, safe_load (extract_decision_yaml response_text) = YamlLoadResult.mapping kv →
      kv.lookup "needs_fixing" = none) :
    should_refine_query_or_tests safe_load response_text = "query" := by
  unfold should_refine_query_or_tests
  cases hl : safe_load (extract_decision_yaml response_text) with
  | loadFailure => rfl
  | nonMapping => rfl
  | mapping kv =>
      show (kv.lookup "needs_fixing").getD "query" = "query"
      rw [h kv hl]
      rfl

/-- C10 witness: a parser that yields a mapping without `needs_fixing`
makes the decision fall back to `'query'`. -/
theorem claim_C10_witness :
    should_refine_query_or_tests
        (fun _ => YamlLoadResult.mapping [("reasoning", "because")])
        "needs_fixing is missing here" = "query" :=
  claim_C10_default_query (fun _ => YamlLoadResult.mapping [("reasoning", "because")])
    "needs_fixing is missing here" (fun kv hkv => by cases hkv; rfl)

/-- C2: with `max_iterations = 3`, when every iteration's validation
fails and every regeneration response parses with the `'rules'` key, the
loop performs exactly 3 validation passes (3 history records), invokes
the regeneration collaborator exactly 2 times, and returns a structured
result flagged `validation_incomplete = true` with the outstanding issue
list attached (the embedding is total, so no unhandled error reaches the
caller). -/
theorem claim_C2_loop_exhaustion
    (validate : ℕ → RulesDict → Bool × List String)
    (regenerate : ℕ → List String → RefinedParse)
    (rules_data : RulesDict)
    (hfail : ∀ i d, (validate i d).1 = false)
    (hregen : ∀ i issues, ∃ d, regenerate i issues = RefinedParse.parsed d ∧ d.rules.isSome) :
    ∃ r : ValidationOutcome,
      validate_and_refine_rules validate regenerate 3 rules_data = (LoopReturn.result r, 2) ∧
      r.validation_history.length = 3 ∧
      r.validation_incomplete = true ∧
      r.remaining_issues.isSome := by
  unfold validate_and_refine_rules
  rw [show (3 : ℕ) = 2 + 1 from rfl]
  rw [validate_and_refine_loop]
  cases hv0 : validate 0 rules_data with
  | mk av0 is0 =>
  have hf0 : av0 = false := by have h := hfail 0 rules_data; rw [hv0] at h; exact h
  subst hf0
  obtain ⟨d1, hr1, hd1⟩ := hregen 0 is0
  obtain ⟨rl1, hrl1⟩ := Option.isSome_iff_exists.mp hd1
  simp only [Bool.false_eq_true, if_false, show (0 < 2 + 1 - 1) = True by simp, if_true, hr1,
    hrl1, Option.isNone_some]
  rw [show (2 : ℕ) = 1 + 1 from rfl]
  rw [validate_and_refine_loop]
  cases hv1 : validate (0 + 1)
      ⟨some rl1, some (d1.cti_context.getD CtiContext.defaultStamp)⟩ with
  | mk av1 is1 =>
  have hf1 : av1 = false := by
    have h := hfail (0 + 1) ⟨some rl1, some (d1.cti_context.getD CtiContext.defaultStamp)⟩
    rw [hv1] at h; exact h
  subst hf1
  obtain ⟨d2, hr2, hd2⟩ := hregen (0 + 1) is1
  obtain ⟨rl2, hrl2⟩ := Option.isSome_iff_exists.mp hd2
  simp only [Bool.false_eq_true, if_false, show (0 + 1 < 1 + 1 + 1 - 1) = True by simp, if_true,
    hr2, hrl2, Option.isNone_some]
  rw [show (1 : ℕ) = 0 + 1 from rfl]
  rw [validate_and_refine_loop]
  cases hv2 : validate (0 + 1 + 1)
      ⟨some rl2, some (d2.cti_context.getD CtiContext.defaultStamp)⟩ with
  | mk av2 is2 =>
  have hf2 : av2 = false := by
    have h := hfail (0 + 1 + 1) ⟨some rl2, some (d2.cti_context.getD CtiContext.defaultStamp)⟩
    rw [hv2] at h; exact h
  subst hf2
  simp only [Bool.false_eq_true, if_false,
    show (0 + 1 + 1 < 0 + 1 + 1 + 1 - 1) = False by simp]
  exact ⟨_, rfl, by simp, rfl, rfl⟩

/-- C2 witness: with the concrete always-failing validation oracle and
the always-well-formed regeneration oracle, the run makes exactly 2
regeneration calls and ends in the exhausted structured result. -/
theorem claim_C2_witness :
    (validate_and_refine_rules all_invalid_validate ok_regenerate 3 sample_rules_data).2 = 2 ∧
    is_exhausted_outcome
      (validate_and_refine_rules all_invalid_validate ok_regenerate 3 sample_rules_data).1
      = true := by
  obtain ⟨r, heq, h3, hinc, hrem⟩ :=
    claim_C2_loop_exhaustion all_invalid_validate ok_regenerate sample_rules_data
      (fun _ _ => rfl) (fun _ _ => ⟨⟨some [], none⟩, rfl, rfl⟩)
  rw [heq]
  exact ⟨rfl, by simp [is_exhausted_outcome, hinc, hrem, h3]⟩

/-- C5 (amended): when the first regeneration response is structurally
incomplete — it fails to parse, or parses without the mandatory `'rules'`
key — the controller does abort the loop early (one validation pass, one
regeneration call), but the aborted batch's return value is the bare
rules dict reached by `break` (the previous `rules_data` on a parse
failure, the freshly parsed incomplete dict on a missing key), which
carries no outstanding issue list. -/
theorem claim_C5_abort_on_malformed
    (validate : ℕ → RulesDict → Bool × List String)
    (regenerate : ℕ → List String → RefinedParse)
    (rules_data : RulesDict)
    (hfail : (validate 0 rules_data).1 = false) :
    (regenerate 0 (validate 0 rules_data).2 = RefinedParse.parseFailure →
      validate_and_refine_rules validate regenerate 3 rules_data
        = (LoopReturn.raw rules_data, 1) ∧
      surfaces_issue_list
        (validate_and_refine_rules validate regenerate 3 rules_data).1 = false) ∧
    (∀ d, regenerate 0 (validate 0 rules_data).2 = RefinedParse.parsed d → d.rules = none →
      validate_and_refine_rules validate regenerate 3 rules_data
        = (LoopReturn.raw d, 1) ∧
      surfaces_issue_list
        (validate_and_refine_rules validate regenerate 3 rules_data).1 = false) := by
  unfold validate_and_refine_rules
  rw [show (3 : ℕ) = 2 + 1 from rfl]
  rw [validate_and_refine_loop]
  cases hv0 : validate 0 rules_data with
  | mk av0 is0 =>
  have hf0 : av0 = false := by rw [hv0] at hfail; exact hfail
  subst hf0
  constructor
  · intro hpf
    simp only [Bool.false_eq_true, if_false, show (0 < 2 + 1 - 1) = True by simp, if_true, hpf]
    exact ⟨by trivial, by trivial⟩
  · intro d hpd hdn
    simp only [Bool.false_eq_true, if_false, show (0 < 2 + 1 - 1) = True by simp, if_true, hpd,
      hdn, Option.isNone_none]
    exact ⟨by trivial, by trivial⟩

/-- C5 counterexample: with a concrete failing validation and a
regeneration whose response never parses, the function returns the bare
original `rules_data` (after a single regeneration attempt) — a value
that does not surface any outstanding issue list, contradicting the
claim that the returned value surfaces it. -/
theorem claim_C5_counterexample :
    validate_and_refine_rules all_invalid_validate malformed_regenerate 3 sample_rules_data
      = (LoopReturn.raw sample_rules_data, 1) ∧
    surfaces_issue_list
      (validate_and_refine_rules all_invalid_validate malformed_regenerate 3
        sample_rules_data).1 = false :=
  ⟨rfl, rfl⟩

/-- C5 witness: the amended theorem's missing-`'rules'`-key branch at a
concrete input — the loop aborts after one regeneration call and returns
the incomplete parsed dict bare. -/
theorem claim_C5_witness :
    validate_and_refine_rules all_invalid_validate noRules_regenerate 3 sample_rules_data
      = (LoopReturn.raw ⟨none, none⟩, 1) ∧
    surfaces_issue_list
      (validate_and_refine_rules all_invalid_validate noRules_regenerate 3
        sample_rules_data).1 = false :=
  (claim_C5_abort_on_malformed all_invalid_validate noRules_regenerate sample_rules_data
    rfl).2 ⟨none, none⟩ rfl rfl
